import Mathlib

set_option autoImplicit false

/-!
Verification development for the EastAgileTracker migration engine.

The Python sources are shallowly embedded: strings are modelled as `String`
or, where character-level behaviour matters, as `List Char` (ASCII scope);
Python exceptions are modelled with `Except`/`Option`; the remote API is
modelled by scripts of outcomes and by traces of the calls a migrator issues.
-/

deriving instance DecidableEq for Except

namespace EastAgileTracker

/-! ### Python string primitives -/

/-- Whitespace characters recognised by the model of Python `str.strip()`
(ASCII scope). -/
def isPySpace (c : Char) : Bool :=
  c == ' ' || c == '\t' || c == '\n' || c == '\r'

/-- Model of Python `str.strip()`: drop leading and trailing whitespace. -/
def pyStrip (l : List Char) : List Char :=
  ((l.dropWhile isPySpace).reverse.dropWhile isPySpace).reverse

/-- Model of Python `str.strip()` on `String`. -/
def py_strip_line (s : String) : String :=
  String.mk (pyStrip s.data)

/-- Model of Python `str.split(sep)` for a one-character separator: the
separator is consumed and empty segments are kept, so the result is never
empty. -/
def splitOnChar (sep : Char) : List Char → List (List Char)
  | [] => [[]]
  | c :: rest =>
    match splitOnChar sep rest with
    | [] => [[c]]
    | h :: t => if c == sep then [] :: h :: t else (c :: h) :: t

/-- Model of Python `str.isdigit()` (ASCII scope): nonempty and all digits. -/
def pyIsDigitStr (l : List Char) : Bool :=
  !l.isEmpty && l.all Char.isDigit

/-- Numeric value of a digit string, as Python `int()` computes it on an
all-digit argument. -/
def digitsVal (l : List Char) : Nat :=
  l.foldl (fun n c => 10 * n + (c.toNat - 48)) 0

/-- Model of Python `int(s)` on a stripped string: an optional minus sign
followed by digits; any other shape raises `ValueError`, modelled by
`none`. -/
def pyIntOfString (s : String) : Option Int :=
  match s.data with
  | [] => none
  | '-' :: ds => if pyIsDigitStr ds then some (-(digitsVal ds : Int)) else none
  | ds => if pyIsDigitStr ds then some ((digitsVal ds : Int)) else none

/-! ### Python values and `in` (claim C1)

`linear/utils.py` reads the processed-teams file back as *strings* while the
orchestrator probes it with an *integer* project id, so Python's `in` compares
values of different runtime types. `PyVal` makes that typed comparison
explicit. -/

inductive PyVal
  | int (n : Int)
  | str (s : String)
  deriving DecidableEq

/-- Python `==` on the two runtime types involved: values of different types
compare unequal (no error). -/
def PyVal.pyEq : PyVal → PyVal → Bool
  | .int a, .int b => a == b
  | .str a, .str b => a == b
  | _, _ => false

/-- Python `v in xs` on a collection of `PyVal`s. -/
def pyContains (xs : List PyVal) (v : PyVal) : Bool :=
  xs.any (fun x => v.pyEq x)

/-- Embedding of `linear/utils.py mark_team_as_processed`: appends the id,
formatted with `f"{team_id}\n"`, as one line of the processed-teams file
(files are modelled as lists of lines without the newline). -/
def mark_team_as_processed (file : List String) (teamId : Int) : List String :=
  file ++ [toString teamId]

/-- Embedding of `linear/utils.py get_processed_teams`: every nonempty
stripped line is kept as a *string*.  The Python set is modelled as the list
of its members, which is enough for membership tests. -/
def get_processed_teams (file : List String) : List PyVal :=
  (((file.map py_strip_line).filter (fun l => l != ""))).map PyVal.str

/-- Embedding of `jira/utils.py mark_project_as_imported`. -/
def mark_project_as_imported (file : List String) (projectId : Int) : List String :=
  file ++ [toString projectId]

/-- Embedding of `jira/utils.py get_imported_projects`: every nonempty
stripped line is parsed with `int(...)`; a malformed line would raise
(`none`). -/
def get_imported_projects (file : List String) : Option (List PyVal) :=
  (((file.map py_strip_line).filter (fun l => l != "")).mapM pyIntOfString).map
    (fun l => l.map PyVal.int)

/-- Skip condition of `linear/main.py MigrationOrchestrator.migrate_project`
(lines 72-80): the project is skipped — returning before any remote call —
exactly when `project_id in processed_teams and not force_update`. -/
def linear_migrate_project_skips (file : List String) (projectId : Int)
    (forceUpdate : Bool) : Bool :=
  pyContains (get_processed_teams file) (PyVal.int projectId) && !forceUpdate

/-- Skip condition of `jira/main.py MigrationOrchestrator.migrate_project`
(lines 56-64); `none` if reading the imported-projects file raises. -/
def jira_migrate_project_skips (file : List String) (projectId : Int)
    (forceUpdate : Bool) : Option Bool :=
  (get_imported_projects file).map
    (fun s => pyContains s (PyVal.int projectId) && !forceUpdate)

/-! ### Blocker reference parsing (claims C3, C4)

`jira/migrators/issue_migrator.py process_blockers` extracts a story
reference from a blocker description with
`blocker_content.split("#")[1].split(" ")[0]`, accepted when `isdigit()`. -/

/-- Embedding of the reference extraction in `process_blockers`: guarded by
`"#" in blocker_content`; the candidate is `split("#")[1].split(" ")[0]`,
converted with `int()` when it `isdigit()`. `none` means no reference is
extracted. -/
def blocker_ref (content : List Char) : Option Int :=
  if content.contains '#' then
    let seg := (splitOnChar '#' content).getD 1 []
    let tok := (splitOnChar ' ' seg).headD []
    if pyIsDigitStr tok then some ((digitsVal tok : Nat) : Int) else none
  else none

/-- Reference extraction as claim C4 words it: the first `#`-prefixed run of
digits occurring anywhere in the string — a `#` followed by a non-digit is
skipped and scanning continues. -/
def claimed_first_hash_digit_ref : List Char → Option Int
  | [] => none
  | '#' :: d :: rest =>
    if d.isDigit then
      some ((digitsVal ((d :: rest).takeWhile Char.isDigit) : Nat) : Int)
    else claimed_first_hash_digit_ref (d :: rest)
  | _ :: rest => claimed_first_hash_digit_ref rest

/-- Direct characterisation of `blocker_ref` used by the amended claim C4:
the candidate token is the text after the *first* `#`, cut at the next `#`
or space; it counts as a reference only when nonempty and all digits. -/
def amended_ref (content : List Char) : Option Int :=
  if content.contains '#' then
    let tok :=
      ((content.dropWhile (fun c => c != '#')).tail).takeWhile
        (fun c => c != '#' && c != ' ')
    if pyIsDigitStr tok then some ((digitsVal tok : Nat) : Int) else none
  else none

/-! ### Source data model (models.py / the prepared record objects)

Only the fields the claims touch are carried. -/

/-- File attachment of a comment (`models.py FileAttachment`); `fileExists`
is the oracle for `os.path.exists` on its resolved content path. -/
structure PTAttachment where
  id : Int
  filePath : String
  fileExists : Bool
  deriving DecidableEq

/-- Comment of a story (`models.py Comment` with its `file_attachments`). -/
structure PTComment where
  id : Int
  attachments : List PTAttachment
  deriving DecidableEq

/-- Blocker of a story (`models.py Blocker`); `storyId` is the id of the
story the blocker belongs to — the `blocker.story` relationship. -/
structure PTBlocker where
  description : List Char
  resolved : Bool
  storyId : Int
  deriving DecidableEq

/-- Task of a story (`models.py Task`). -/
structure PTTask where
  id : Int
  description : List Char
  complete : Bool
  deriving DecidableEq

/-- Story (`models.py Story` restricted to the fields the claims use). -/
structure PTStory where
  id : Int
  name : List Char
  blockers : List PTBlocker
  comments : List PTComment
  deriving DecidableEq

/-- Iteration (`models.py Iteration`): its number and the ids of its
stories. -/
structure PTIteration where
  number : Int
  storyIds : List Int
  deriving DecidableEq

/-- Project (`models.py Project`). -/
structure PTProject where
  id : Int
  stories : List PTStory
  iterations : List PTIteration
  deriving DecidableEq

/-! ### Blocker migration (claim C3) -/

/-- Embedding of `jira/migrators/issue_migrator.py
IssueMigrator.process_blockers`: for every story and every unresolved
blocker whose description yields a digit reference present in the issue map
(and with the story itself mapped), `create_blocker_link(map[ref],
map[story.id])` is called; the returned list is the ordered `(blockerKey,
blockedKey)` argument pairs.  A failing remote call is caught and logged, so
the function never raises. -/
def process_blockers (jiraIssueMap : List (Int × String))
    (ptStories : List PTStory) : List (String × String) :=
  ptStories.foldl (fun acc s =>
    s.blockers.foldl (fun acc2 b =>
      if b.resolved then acc2
      else
        match blocker_ref b.description with
        | none => acc2
        | some refId =>
          match jiraIssueMap.lookup refId, jiraIssueMap.lookup s.id with
          | some blockerKey, some blockedKey => acc2 ++ [(blockerKey, blockedKey)]
          | _, _ => acc2) acc) []

/-- Embedding of `linear/migrators/relation_migrator.py
RelationMigrator.migrate_story_relations`: the blocker description is never
parsed; the endpoints are `blocker.story` (the story owning the blocker) and
the story being processed.  Either lookup failing drops the blocker with a
warning; the result is the ordered `(issue_id, related_issue_id)` pairs
passed to `create_issue_relation` with type `"blocks"`. -/
def migrate_story_relations (issueMap : List (Int × String)) (s : PTStory) :
    List (String × String) :=
  match issueMap.lookup s.id with
  | none => []
  | some linearIssue =>
    s.blockers.foldl (fun acc b =>
      if b.resolved then acc
      else
        match issueMap.lookup b.storyId with
        | none => acc
        | some linearBlockerIssue => acc ++ [(linearBlockerIssue, linearIssue)]) []

/-- Embedding of `RelationMigrator.migrate_relations`: per-story relation
migration with per-story error isolation (irrelevant here since
`migrate_story_relations` is total). -/
def migrate_relations (issueMap : List (Int × String))
    (stories : List PTStory) : List (String × String) :=
  (stories.map (migrate_story_relations issueMap)).flatten

/-! ### Story migration and the Jira orchestrator (claim C2) -/

/-- Embedding of `jira/migrators/issue_migrator.py
IssueMigrator.migrate_issues`: stories are migrated in order; a story whose
`migrate_issue` raises (`IssueMigrationError`, modelled by the `storyFails`
oracle) is caught, logged and omitted from the returned map; `newKey` stands
for the key Jira returns for a created issue. -/
def migrate_issues (storyFails : Int → Bool) (newKey : Int → String)
    (stories : List PTStory) : List (Int × String) :=
  stories.foldl (fun m s =>
    if storyFails s.id then m else m ++ [(s.id, newKey s.id)]) []

/-- Embedding of the sprint-association step of `jira/main.py
migrate_project` (lines 115-124): for each iteration the issue keys are
collected with the guard `if story.id in issue_map`. -/
def jira_sprint_association (issueMap : List (Int × String))
    (iterations : List PTIteration) : List (Int × List String) :=
  iterations.map (fun it => (it.number, it.storyIds.filterMap issueMap.lookup))

/-- Embedding of the comment step of `jira/main.py migrate_project` (lines
135-138): `jira_issue_key = issue_map[pt_story.id]` is an *unguarded* dict
indexing, so a story missing from the map raises `KeyError`.  Comment
migration itself catches per-comment errors, so under C2's hypothesis that
only one story's migration failed the lookup is the only failure source. -/
def jira_comments_step (issueMap : List (Int × String))
    (stories : List PTStory) : Except String Unit :=
  stories.foldlM (fun _ s =>
    match issueMap.lookup s.id with
    | none => Except.error ("KeyError: " ++ toString s.id)
    | some _ => Except.ok ()) ()

/-- Embedding of `jira/main.py MigrationOrchestrator.migrate_project` past
the skip check, for claim C2's scenario: every step other than the story
migration succeeds (workspace, users, epics, sprints are successful no-ops
and carry no state the later steps read), stories fail per the `storyFails`
oracle, and any exception inside the `try` block is re-raised as
`JiraMigrationError`.  Returns the issue map on success. -/
def jira_migrate_project (storyFails : Int → Bool) (newKey : Int → String)
    (p : PTProject) : Except String (List (Int × String)) :=
  let issueMap := migrate_issues storyFails newKey p.stories
  let _blockerLinks := process_blockers issueMap p.stories
  let _sprints := jira_sprint_association issueMap p.iterations
  match jira_comments_step issueMap p.stories with
  | Except.error e => Except.error ("JiraMigrationError: " ++ e)
  | Except.ok _ => Except.ok issueMap

/-- Embedding of the comment loop of `linear/main.py migrate_project` (lines
119-124): the Linear issue of each story is looked up with
`get_linear_issue` and the story is *skipped* when it is `None`
(`if linear_issue:`), so a story missing from the map never raises. -/
def linear_comments_step (issueMap : List (Int × String))
    (stories : List PTStory) : List String :=
  stories.filterMap (fun s => issueMap.lookup s.id)

/-- Embedding of `linear/main.py MigrationOrchestrator.migrate_project` past
the skip check, under the same conventions as `jira_migrate_project`: the
guarded comment loop and the total relation step make the whole run
succeed even when some stories failed to migrate. -/
def linear_migrate_project (storyFails : Int → Bool) (newId : Int → String)
    (p : PTProject) : Except String (List (Int × String)) :=
  let issueMap := migrate_issues storyFails newId p.stories
  let _comments := linear_comments_step issueMap p.stories
  let _relations := migrate_relations issueMap p.stories
  Except.ok issueMap

/-! ### Comment and attachment call order (claim C5) -/

/-- Remote calls a comment migrator issues. -/
inductive CEvent
  | createAttachment (attachmentId : Int)
  | createComment (commentId : Int)
  deriving DecidableEq

/-- Embedding of `jira/migrators/comment_migrator.py
CommentMigrator.migrate_comments` as the ordered remote calls issued on the
success path: a comment without attachments is created directly; otherwise
every attachment is migrated first and the comment referencing them is
created afterwards. -/
def jira_migrate_comments_calls (comments : List PTComment) : List CEvent :=
  (comments.map (fun c =>
    if c.attachments.length = 0 then [CEvent.createComment c.id]
    else c.attachments.map (fun a => CEvent.createAttachment a.id) ++
      [CEvent.createComment c.id])).flatten

/-- Embedding of the path computation inside `linear/migrators/
comment_migrator.py migrate_attachments`: `Config.get_attachment_path` of
`linear/config.py` takes `(project_id, story_id, filename)` but is invoked
with the single argument `pt_attachment.file_path`, so every invocation
raises `TypeError` before any file or remote access. -/
def linear_get_attachment_path_call (_filePath : String) : Except String String :=
  Except.error "TypeError: get_attachment_path missing 2 required positional arguments"

/-- Embedding of one iteration of `linear CommentMigrator.migrate_attachments`:
the path computation raises, the exception is caught and the attachment is
skipped with a warning; were a path returned, a missing file would also skip
the attachment, and otherwise `create_attachment` would be called. -/
def linear_migrate_attachment_calls (a : PTAttachment) : List CEvent :=
  match linear_get_attachment_path_call a.filePath with
  | Except.error _ => []
  | Except.ok _ => if a.fileExists then [CEvent.createAttachment a.id] else []

/-- Embedding of `linear CommentMigrator.migrate_comment` as the ordered
remote calls issued on the success path: `create_comment` is called *first*
(lines 69-71) and the comment's attachments are processed only afterwards
(lines 83-86, guarded by the truthiness of `pt_comment.file_attachments`). -/
def linear_migrate_comment_calls (c : PTComment) : List CEvent :=
  [CEvent.createComment c.id] ++
    (if !c.attachments.isEmpty then
      (c.attachments.map linear_migrate_attachment_calls).flatten
    else [])

/-- Embedding of `linear CommentMigrator.migrate_comments`: comments are
processed in source order with per-comment error isolation. -/
def linear_migrate_comments_calls (comments : List PTComment) : List CEvent :=
  (comments.map linear_migrate_comment_calls).flatten

/-! ### The Jira HTTP client retry loop (claims C6, C7) -/

/-- Outcome of one attempted HTTP exchange, as `jira/api.py _request` sees
it: a successful (< 400) response with a JSON body, a response with status
≥ 400 — raised as `ClientResponseError`, carrying an optional integer
`Retry-After` header — or a transport-level failure
(`aiohttp.ClientError`). -/
inductive RemoteOutcome
  | ok (body : String)
  | httpError (status : Nat) (retryAfter : Option Int) (body : String)
  | transportErr
  deriving DecidableEq

/-- Result of `jira/api.py _request`.  `apiError` and `transportExhausted`
are both `JiraAPIError` in the source (the latter is the
"Request failed after N attempts" message); `rateLimitExceeded` is
`RateLimitError`; `outOfScript` is a modelling artifact for scripts shorter
than the attempts made. -/
inductive JiraResult
  | ok (body : String)
  | apiError (status : Nat) (body : String)
  | transportExhausted
  | rateLimitExceeded
  | outOfScript
  deriving DecidableEq

/-- Model of Python `int()` applied to a float, as in
`int(Config.RATE_LIMIT_PAUSE)`: truncation toward zero. -/
def pyIntOfRat (q : ℚ) : Int :=
  q.num / (q.den : Int)

/-- Sleep performed on a 429 response:
`int(e.headers.get("Retry-After", Config.RATE_LIMIT_PAUSE))` seconds. -/
def sleep429 (retryAfter : Option Int) (pause : ℚ) : ℚ :=
  ((retryAfter.getD (pyIntOfRat pause) : Int) : ℚ)

/-- Embedding of the `for attempt in range(Config.MAX_RETRIES)` loop of
`jira/api.py JiraAPI._request` (lines 46-100).  The script lists the remote
outcome of each successive attempt; the result is paired with the ordered
list of sleep durations.  A 429 sleeps `Retry-After` (or the converted
default pause) and continues the loop; any other ≥ 400 status raises
`JiraAPIError` at once; a transport failure on the last attempt raises
`JiraAPIError`, otherwise it sleeps the default pause and continues; leaving
the loop raises `RateLimitError`. -/
def jira_request_go (maxRetries : Nat) (pause : ℚ) :
    Nat → List ℚ → List RemoteOutcome → JiraResult × List ℚ
  | attempt, sleeps, script =>
    if attempt < maxRetries then
      match script with
      | [] => (JiraResult.outOfScript, sleeps)
      | RemoteOutcome.ok body :: _ => (JiraResult.ok body, sleeps)
      | RemoteOutcome.httpError status retryAfter body :: rest =>
        if status = 429 then
          jira_request_go maxRetries pause (attempt + 1)
            (sleeps ++ [sleep429 retryAfter pause]) rest
        else (JiraResult.apiError status body, sleeps)
      | RemoteOutcome.transportErr :: rest =>
        if attempt = maxRetries - 1 then (JiraResult.transportExhausted, sleeps)
        else jira_request_go maxRetries pause (attempt + 1) (sleeps ++ [pause]) rest
    else (JiraResult.rateLimitExceeded, sleeps)

/-- Embedding of `JiraAPI._request` on a script of attempt outcomes. -/
def jira_request (maxRetries : Nat) (pause : ℚ) (script : List RemoteOutcome) :
    JiraResult × List ℚ :=
  jira_request_go maxRetries pause 0 [] script

/-- Modelled from the spec: the request semantics claim C6 describes, in
which 429 retries keep their own counter and are *not* counted against the
transport-retry budget — each of the two kinds of retry is separately
bounded by `maxRetries`. -/
def claimed_request_go (maxRetries : Nat) (pause : ℚ) :
    Nat → Nat → List ℚ → List RemoteOutcome → JiraResult × List ℚ
  | tAttempts, rAttempts, sleeps, script =>
    if rAttempts ≥ maxRetries then (JiraResult.rateLimitExceeded, sleeps)
    else
      match script with
      | [] => (JiraResult.outOfScript, sleeps)
      | RemoteOutcome.ok body :: _ => (JiraResult.ok body, sleeps)
      | RemoteOutcome.httpError status retryAfter body :: rest =>
        if status = 429 then
          claimed_request_go maxRetries pause tAttempts (rAttempts + 1)
            (sleeps ++ [sleep429 retryAfter pause]) rest
        else (JiraResult.apiError status body, sleeps)
      | RemoteOutcome.transportErr :: rest =>
        if tAttempts + 1 ≥ maxRetries then (JiraResult.transportExhausted, sleeps)
        else claimed_request_go maxRetries pause (tAttempts + 1) rAttempts
          (sleeps ++ [pause]) rest

/-- Modelled from the spec: `claimed_request_go` started with both counters
at zero. -/
def claimed_request (maxRetries : Nat) (pause : ℚ)
    (script : List RemoteOutcome) : JiraResult × List ℚ :=
  claimed_request_go maxRetries pause 0 0 [] script

/-- Embedding of `linear/utils.py retry_async` applied to a wrapped
coroutine `f` (the call index is passed to `f` so distinct attempts can be
scripted).  `budget` is the number of loop iterations left
(`max_retries - retries`); on a failure of the last allowed iteration the
exception is re-raised; otherwise the wrapper sleeps
`delay * (2 ** (retries - 1))` and retries.  When the loop is exhausted
without entering (only possible for `max_retries = 0`) the function is
called once more unconditionally.  Returns the result, the number of calls
made, and the sleeps performed. -/
def retry_async_go (delay : ℚ) (f : Nat → Except String String) :
    Nat → Nat → Nat → List ℚ → Except String String × Nat × List ℚ
  | 0, _retries, calls, sleeps => (f calls, calls + 1, sleeps)
  | budget + 1, retries, calls, sleeps =>
    match f calls with
    | Except.ok a => (Except.ok a, calls + 1, sleeps)
    | Except.error e =>
      if budget = 0 then (Except.error e, calls + 1, sleeps)
      else retry_async_go delay f budget (retries + 1) (calls + 1)
        (sleeps ++ [delay * 2 ^ retries])

/-- Embedding of `retry_async(max_retries, delay)` — the decorator on
`linear/api.py LinearAPI.execute_query` uses `max_retries=3, delay=1` and
retries *every* exception, including the `LinearAPIError` that wraps a
failed GraphQL query. -/
def retry_async (maxRetries : Nat) (delay : ℚ)
    (f : Nat → Except String String) : Except String String × Nat × List ℚ :=
  retry_async_go delay f maxRetries 0 0 []

/-! ### Pagination (claim C8) -/

/-- Body of one page response of `src/api.py _paginate`: either a JSON list
or a single (non-list) object. -/
inductive PageResp (α : Type)
  | list (items : List α)
  | single (obj : String)

/-- Result of `_paginate`: the accumulated items, a single object returned
unchanged, or non-termination of the `while True` loop within the given
fuel. -/
inductive PaginateResult (α : Type)
  | items (l : List α)
  | single (obj : String)
  | hang
  deriving DecidableEq

/-- Embedding of the `while True` loop of `src/api.py
PivotalTrackerAPI._paginate` (lines 122-134): `f` maps the request offset to
the response; a list page is accumulated and, when shorter than the limit,
ends the loop; otherwise the offset advances by the limit; a non-list
response is returned unchanged, discarding the accumulator. -/
def paginate_go {α : Type} (f : Nat → PageResp α) (limit : Nat) :
    Nat → List α → Nat → PaginateResult α
  | _offset, _acc, 0 => PaginateResult.hang
  | offset, acc, fuel + 1 =>
    match f offset with
    | PageResp.single obj => PaginateResult.single obj
    | PageResp.list items =>
      if items.length < limit then PaginateResult.items (acc ++ items)
      else paginate_go f limit (offset + limit) (acc ++ items) fuel

/-- Embedding of `_paginate`: `params["limit"] = 100`, `params["offset"] =
0`, empty accumulator. -/
def paginate {α : Type} (f : Nat → PageResp α) (fuel : Nat) : PaginateResult α :=
  paginate_go f 100 0 [] fuel

/-! ### The token-bucket rate limiter (claim C9) -/

/-- State of `src/api.py RateLimiter`: `allowance` is initialised to `rate`
by the constructor; `last_check` is represented implicitly by feeding
`acquire` the elapsed time since the previous call. -/
structure RateLimiter where
  rate : ℚ
  interval : ℚ
  allowance : ℚ
  deriving DecidableEq

/-- Embedding of `RateLimiter.__init__(rate, interval)`. -/
def RateLimiter.init (rate interval : ℚ) : RateLimiter :=
  { rate := rate, interval := interval, allowance := rate }

/-- Embedding of `src/api.py RateLimiter.acquire` (lines 21-32): refill by
`elapsed * rate / interval`, cap at `rate`, then either sleep the deficit
`1 - allowance` and zero the bucket, or debit one token without sleeping.
Returns the updated limiter and the seconds slept. -/
def RateLimiter.acquire (rl : RateLimiter) (elapsed : ℚ) : RateLimiter × ℚ :=
  let refilled := rl.allowance + elapsed * (rl.rate / rl.interval)
  let capped := if refilled > rl.rate then rl.rate else refilled
  if capped < 1 then ({ rl with allowance := 0 }, 1 - capped)
  else ({ rl with allowance := capped - 1 }, 0)

/-! ### Name sanitisation (claim C10) -/

/-- Characters `linear/utils.py sanitize_name` keeps:
`c.isalnum() or c in [" ", "-", "_"]` (ASCII scope for `isalnum`). -/
def keep_char (c : Char) : Bool :=
  c.isAlphanum || c == ' ' || c == '-' || c == '_'

/-- Embedding of `linear/utils.py sanitize_name` at the default
`max_length=50` (the only call sites use the default): invalid characters
removed, then truncated to 50 characters, then stripped. -/
def sanitize_name (name : List Char) : List Char :=
  pyStrip ((name.filter keep_char).take 50)

/-- Title of the Linear issue created for a story by
`linear/migrators/issue_migrator.py migrate_issue` (line 89):
`sanitize_name(pt_story.name)`. -/
def migrate_issue_title (s : PTStory) : List Char :=
  sanitize_name s.name

/-- Title of the Linear sub-issue created for a task by
`linear/migrators/issue_migrator.py migrate_tasks` (line 188):
`sanitize_name(pt_task.description)`. -/
def migrate_task_title (t : PTTask) : List Char :=
  sanitize_name t.description

/-! ### Helper lemmas -/

theorem splitOnChar_ne_nil (sep : Char) (l : List Char) : splitOnChar sep l ≠ [] := by
  cases l with
  | nil => simp [splitOnChar]
  | cons c rest =>
    cases h : splitOnChar sep rest with
    | nil => simp [splitOnChar, h]
    | cons a t =>
      by_cases hc : c == sep <;> simp [splitOnChar, h, hc]

theorem splitOnChar_headD (sep : Char) (l : List Char) :
    (splitOnChar sep l).headD [] = l.takeWhile (fun c => c != sep) := by
  induction l with
  | nil => rfl
  | cons c rest ih =>
    cases h : splitOnChar sep rest with
    | nil => exact absurd h (splitOnChar_ne_nil sep rest)
    | cons a t =>
      rw [h] at ih
      by_cases hc : c = sep
      · simp [splitOnChar, h, hc]
      · simp [splitOnChar, h, hc, List.takeWhile_cons, ← ih]

theorem splitOnChar_getD_one (sep : Char) (l : List Char)
    (h : l.contains sep = true) :
    (splitOnChar sep l).getD 1 [] =
      ((l.dropWhile (fun c => c != sep)).tail).takeWhile (fun c => c != sep) := by
  induction l with
  | nil => simp at h
  | cons c rest ih =>
    cases hs : splitOnChar sep rest with
    | nil => exact absurd hs (splitOnChar_ne_nil sep rest)
    | cons a t =>
      by_cases hc : c = sep
      · have ha := splitOnChar_headD sep rest
        rw [hs] at ha
        simp [splitOnChar, hs, hc]
        simpa using ha
      · have h' : rest.contains sep = true := by
          simp only [List.contains_cons] at h
          rcases Bool.or_eq_true_iff.mp h with h1 | h1
          · exact absurd (beq_iff_eq.mp h1).symm hc
          · exact h1
        have := ih h'
        rw [hs] at this
        simp [splitOnChar, hs, hc, List.dropWhile_cons]
        simpa using this

theorem takeWhile_takeWhile_and (p q : Char → Bool) (l : List Char) :
    (l.takeWhile p).takeWhile q = l.takeWhile (fun c => p c && q c) := by
  induction l with
  | nil => rfl
  | cons c rest ih =>
    by_cases hp : p c
    · by_cases hq : q c <;> simp [List.takeWhile_cons, hp, hq, ih]
    · simp [List.takeWhile_cons, hp]

theorem flatten_map_singleton {α β : Type} (f : α → β) (l : List α) :
    (l.map (fun a => [f a])).flatten = l.map f := by
  induction l with
  | nil => rfl
  | cons a t ih => simp [ih]

theorem linear_attachment_calls_nil (atts : List PTAttachment) :
    (atts.map linear_migrate_attachment_calls).flatten = [] := by
  induction atts with
  | nil => rfl
  | cons a t ih =>
    simp [linear_migrate_attachment_calls, linear_get_attachment_path_call, ih]

/-! ### Claim theorems -/

/-- C1: the Linear orchestrator's skip check can never fire — the
processed-teams file is read back as strings while the probe is the integer
project id, and Python's `in` compares them unequal — so a second
`migrate_project` run with `force=False` proceeds to issue its remote calls
again even right after the id was marked processed.  The Jira check, which
parses the lines back to integers, does fire. -/
theorem c1_processed_set_type_mismatch :
    (∀ (file : List String) (projectId : Int),
      linear_migrate_project_skips file projectId false = false) ∧
    jira_migrate_project_skips (mark_project_as_imported [] 42) 42 false =
      some true := by
  refine ⟨fun file projectId => ?_, by decide⟩
  simp only [linear_migrate_project_skips, pyContains, get_processed_teams,
    List.any_map, Function.comp, Bool.not_false, Bool.and_true]
  rw [List.any_eq_false]
  rintro x hx
  simp only [List.mem_map, List.mem_filter] at hx
  obtain ⟨s, _, rfl⟩ := hx
  simp [PyVal.pyEq]

/-- C2: in the Jira orchestrator, after story 1 of 2 fails to migrate the
surviving story is present in the issue map, yet `migrate_project` as a
whole raises: the comment step indexes `issue_map[pt_story.id]` unguarded,
so the skipped story raises `KeyError`, re-raised as `JiraMigrationError`.
The Linear orchestrator, whose comment loop is guarded, completes on the
same input. -/
theorem c2_jira_comment_step_raises_on_skipped_story :
    migrate_issues (fun i => i == 1) (fun i => "PT-" ++ toString i)
        [⟨1, [], [], [⟨11, []⟩]⟩, ⟨2, [], [], [⟨12, []⟩]⟩] = [(2, "PT-2")] ∧
    jira_migrate_project (fun i => i == 1) (fun i => "PT-" ++ toString i)
        ⟨77, [⟨1, [], [], [⟨11, []⟩]⟩, ⟨2, [], [], [⟨12, []⟩]⟩], []⟩ =
      Except.error "JiraMigrationError: KeyError: 1" ∧
    linear_migrate_project (fun i => i == 1) (fun i => "PT-" ++ toString i)
        ⟨77, [⟨1, [], [], [⟨11, []⟩]⟩, ⟨2, [], [], [⟨12, []⟩]⟩], []⟩ =
      Except.ok [(2, "PT-2")] := by
  refine ⟨by decide, by decide, by decide⟩

/-- C3: with Stories 42 and 43 both mapped and an unresolved Blocker on 43
reading "Blocked by #42 pending review", the Jira migrator creates exactly
the relation WorkItem(42)→WorkItem(43) and, when Story 42 is missing from
the map, creates nothing and raises nothing; the Linear relation migrator
ignores the description and links the blocker's *own* story instead,
producing the self-relation WorkItem(43)→WorkItem(43) and never the claimed
WorkItem(42)→WorkItem(43). -/
theorem c3_blocker_resolution_divergence :
    process_blockers [(42, "W42"), (43, "W43")]
        [⟨42, [], [], []⟩,
         ⟨43, [], [⟨"Blocked by #42 pending review".data, false, 43⟩], []⟩] =
      [("W42", "W43")] ∧
    process_blockers [(43, "W43")]
        [⟨43, [], [⟨"Blocked by #42 pending review".data, false, 43⟩], []⟩] =
      [] ∧
    migrate_relations [(42, "W42"), (43, "W43")]
        [⟨42, [], [], []⟩,
         ⟨43, [], [⟨"Blocked by #42 pending review".data, false, 43⟩], []⟩] =
      [("W43", "W43")] ∧
    ("W42", "W43") ∉ migrate_relations [(42, "W42"), (43, "W43")]
        [⟨42, [], [], []⟩,
         ⟨43, [], [⟨"Blocked by #42 pending review".data, false, 43⟩], []⟩] := by
  refine ⟨by decide, by decide, by decide, by decide⟩

/-- C4 counterexample: on a description whose first `#` is followed by
non-digits and a later `#` by digits, the code extracts no reference at all,
while the claim's "first `#`-prefixed run of digits" rule extracts 42. -/
theorem c4_counterexample_first_hash_only :
    blocker_ref ("see #tag then #42 done".data) = none ∧
    claimed_first_hash_digit_ref ("see #tag then #42 done".data) = some 42 := by
  refine ⟨by decide, by decide⟩

/-- C4 amended: the extracted reference is the text after the *first* `#`,
cut at the next `#` or space, accepted only when nonempty and all digits;
later `#` occurrences are never consulted. -/
theorem c4_amended_ref_eq (content : List Char) :
    blocker_ref content = amended_ref content := by
  by_cases h : content.contains '#' = true
  · simp only [blocker_ref, amended_ref, h, if_true]
    rw [splitOnChar_getD_one '#' content h, splitOnChar_headD,
      takeWhile_takeWhile_and]
  · simp only [blocker_ref, amended_ref, h, Bool.false_eq_true, if_false]

/-- C5 counterexample: for a Linear comment carrying one attachment, the
create-comment call is issued while no create-attachment call is issued at
all (the attachment path computation raises and the attachment is skipped),
so the attachment is not migrated before the comment is created. -/
theorem c5_counterexample_linear_comment_first :
    linear_migrate_comment_calls ⟨5, [⟨9, "img.png", true⟩]⟩ =
      [CEvent.createComment 5] ∧
    CEvent.createAttachment 9 ∉
      linear_migrate_comment_calls ⟨5, [⟨9, "img.png", true⟩]⟩ := by
  refine ⟨by decide, by decide⟩

/-- C5 amended: the Jira comment migrator issues, per comment in source
order, all of the comment's attachment-creation calls and then the
comment-creation call; the Linear comment migrator issues the
comment-creation calls in source order and no attachment-creation call
(the comment is created first, and each subsequent attachment attempt fails
on the path computation and is skipped). -/
theorem c5_amended_comment_order :
    (∀ comments : List PTComment,
      jira_migrate_comments_calls comments =
        (comments.map (fun c =>
          c.attachments.map (fun a => CEvent.createAttachment a.id) ++
            [CEvent.createComment c.id])).flatten) ∧
    (∀ comments : List PTComment,
      linear_migrate_comments_calls comments =
        comments.map (fun c => CEvent.createComment c.id)) := by
  constructor
  · intro comments
    unfold jira_migrate_comments_calls
    congr 1
    apply List.map_congr_left
    intro c _
    by_cases hc : c.attachments.length = 0
    · rw [List.length_eq_zero] at hc
      simp [hc]
    · simp [hc]
  · intro comments
    have hone : ∀ c : PTComment,
        linear_migrate_comment_calls c = [CEvent.createComment c.id] := by
      intro c
      simp [linear_migrate_comment_calls, linear_attachment_calls_nil]
    unfold linear_migrate_comments_calls
    rw [List.map_congr_left (fun c _ => hone c), flatten_map_singleton]

/-! ### Helper lemmas for the client, pagination and sanitisation claims -/

theorem jira_request_go_all429 (pause : ℚ) (maxR : Nat) :
    ∀ (ras : List (Option Int)) (attempt : Nat) (sleeps : List ℚ),
      attempt + ras.length = maxR →
      jira_request_go maxR pause attempt sleeps
          (ras.map (fun ra => RemoteOutcome.httpError 429 ra "limited")) =
        (JiraResult.rateLimitExceeded,
         sleeps ++ ras.map (fun ra => sleep429 ra pause)) := by
  intro ras
  induction ras with
  | nil =>
    intro attempt sleeps h
    simp only [List.length_nil, Nat.add_zero] at h
    subst h
    simp [jira_request_go]
  | cons ra rest ih =>
    intro attempt sleeps h
    have hlt : attempt < maxR := by simp at h; omega
    rw [List.map_cons]
    rw [show jira_request_go maxR pause attempt sleeps
        (RemoteOutcome.httpError 429 ra "limited" ::
          rest.map (fun ra => RemoteOutcome.httpError 429 ra "limited")) =
        jira_request_go maxR pause (attempt + 1)
          (sleeps ++ [sleep429 ra pause])
          (rest.map (fun ra => RemoteOutcome.httpError 429 ra "limited")) from by
      simp [jira_request_go, hlt]]
    rw [ih (attempt + 1) (sleeps ++ [sleep429 ra pause]) (by simp at h ⊢; omega)]
    simp

theorem paginate_go_concat {α : Type} (f : Nat → PageResp α) (limit : Nat) :
    ∀ (n : Nat) (pages : Nat → List α) (offset : Nat) (acc : List α),
      (∀ k, k < n →
        f (offset + limit * k) = PageResp.list (pages k) ∧
        (pages k).length = limit) →
      f (offset + limit * n) = PageResp.list (pages n) →
      (pages n).length < limit →
      paginate_go f limit offset acc (n + 1) =
        PaginateResult.items (acc ++ ((List.range (n + 1)).map pages).flatten) := by
  intro n
  induction n with
  | zero =>
    intro pages offset acc _ hlast hshort
    rw [Nat.mul_zero, Nat.add_zero] at hlast
    simp [paginate_go, hlast, hshort, List.range_succ]
  | succ n ih =>
    intro pages offset acc hfull hlast hshort
    have h0 := hfull 0 (Nat.succ_pos n)
    rw [Nat.mul_zero, Nat.add_zero] at h0
    have hrec := ih (fun k => pages (k + 1)) (offset + limit) (acc ++ pages 0)
      (by
        intro k hk
        have := hfull (k + 1) (by omega)
        rwa [show offset + limit * (k + 1) = offset + limit + limit * k from by ring]
          at this)
      (by
        rwa [show offset + limit * (n + 1) = offset + limit + limit * n from by ring]
          at hlast)
      hshort
    rw [show paginate_go f limit offset acc (n + 1 + 1) =
        paginate_go f limit (offset + limit) (acc ++ pages 0) (n + 1) from by
      simp [paginate_go, h0.1, h0.2]]
    rw [hrec]
    simp only [List.range_succ_eq_map, List.map_cons, List.map_map,
      List.flatten_cons, List.append_assoc]
    rfl

theorem takeWhile_dropWhile_nil (p : Char → Bool) (l : List Char) :
    (l.dropWhile p).takeWhile p = [] := by
  induction l with
  | nil => rfl
  | cons c rest ih =>
    by_cases hc : p c
    · simpa [List.dropWhile_cons, hc] using ih
    · simp [List.dropWhile_cons, hc, List.takeWhile_cons]

theorem takeWhile_nil_of_front (p : Char → Bool) {l₁ l₂ : List Char}
    (h : l₁ <+: l₂) (h2 : l₂.takeWhile p = []) : l₁.takeWhile p = [] := by
  cases l₁ with
  | nil => rfl
  | cons a t =>
    obtain ⟨r, hr⟩ := h
    subst hr
    rw [List.cons_append] at h2
    by_cases hp : p a
    · rw [List.takeWhile_cons, if_pos hp] at h2
      exact absurd h2 (by simp)
    · simp [List.takeWhile_cons, hp]

theorem pyStrip_front_of_dropWhile (l : List Char) :
    pyStrip l <+: l.dropWhile isPySpace := by
  have h := List.dropWhile_suffix (l := (l.dropWhile isPySpace).reverse) isPySpace
  have := List.reverse_prefix.mpr h
  rwa [List.reverse_reverse] at this

theorem pyStrip_takeWhile_nil (l : List Char) :
    (pyStrip l).takeWhile isPySpace = [] :=
  takeWhile_nil_of_front isPySpace (pyStrip_front_of_dropWhile l)
    (takeWhile_dropWhile_nil isPySpace l)

theorem pyStrip_reverse_takeWhile_nil (l : List Char) :
    (pyStrip l).reverse.takeWhile isPySpace = [] := by
  simp only [pyStrip, List.reverse_reverse]
  exact takeWhile_dropWhile_nil isPySpace _

theorem pyStrip_subset (l : List Char) : pyStrip l ⊆ l := by
  intro c hc
  simp only [pyStrip, List.mem_reverse] at hc
  have h1 := (List.dropWhile_suffix (l := (l.dropWhile isPySpace).reverse)
    isPySpace).subset hc
  rw [List.mem_reverse] at h1
  exact (List.dropWhile_suffix isPySpace).subset h1

theorem pyStrip_length_le (l : List Char) : (pyStrip l).length ≤ l.length := by
  simp only [pyStrip, List.length_reverse]
  calc ((l.dropWhile isPySpace).reverse.dropWhile isPySpace).length
      ≤ (l.dropWhile isPySpace).reverse.length :=
        (List.dropWhile_suffix _).length_le
    _ = (l.dropWhile isPySpace).length := List.length_reverse _
    _ ≤ l.length := (List.dropWhile_suffix _).length_le

theorem sanitize_name_length_le (l : List Char) : (sanitize_name l).length ≤ 50 :=
  le_trans (pyStrip_length_le _) (List.length_take_le _ _)

theorem sanitize_name_all_keep (l : List Char) :
    (sanitize_name l).all keep_char = true := by
  rw [List.all_eq_true]
  intro c hc
  have h1 := pyStrip_subset _ hc
  have h2 := List.take_subset 50 _ h1
  exact List.of_mem_filter h2

/-! ### Claim theorems for the client, pagination, rate limiter and titles -/

/-- C6 counterexample: with MAX_RETRIES = 3 and default pause 1, the script
[429, transport failure, transport failure, success] fails with the
transport-exhausted JiraAPIError because the 429 retry consumed one of the
three shared attempts, whereas the claimed semantics — 429 retries not
counted against the transport budget — would reach the fourth outcome and
succeed. -/
theorem c6_counterexample_shared_budget :
    jira_request 3 1
        [RemoteOutcome.httpError 429 none "limited", RemoteOutcome.transportErr,
         RemoteOutcome.transportErr, RemoteOutcome.ok "done"] =
      (JiraResult.transportExhausted, [1, 1]) ∧
    claimed_request 3 1
        [RemoteOutcome.httpError 429 none "limited", RemoteOutcome.transportErr,
         RemoteOutcome.transportErr, RemoteOutcome.ok "done"] =
      (JiraResult.ok "done", [1, 1, 1]) ∧
    JiraResult.transportExhausted ≠ JiraResult.ok "done" := by
  refine ⟨?_, ?_, by decide⟩
  · norm_num [jira_request, jira_request_go, sleep429, pyIntOfRat]
  · norm_num [claimed_request, claimed_request_go, sleep429, pyIntOfRat]

/-- C6 amended: on each 429 the client sleeps the server's Retry-After value
(or the integer conversion of the configured default pause when the header
is absent) and retries the same request, but each such retry consumes one
attempt of the same shared MAX_RETRIES budget used by transport retries; a
run of MAX_RETRIES consecutive 429 responses exhausts the loop and fails
with RateLimitError after sleeping exactly the per-response durations. -/
theorem c6_amended_shared_budget_rate_limit (pause : ℚ) (ras : List (Option Int)) :
    jira_request ras.length pause
        (ras.map (fun ra => RemoteOutcome.httpError 429 ra "limited")) =
      (JiraResult.rateLimitExceeded, ras.map (fun ra => sleep429 ra pause)) := by
  have h := jira_request_go_all429 pause ras.length ras 0 [] (by simp)
  simpa [jira_request] using h

/-- C7 counterexample: the Linear client does not fail after exactly one
attempt on a permanently failing query (as a 4xx/5xx GraphQL failure
wrapped in LinearAPIError is): the retry_async decorator makes three calls,
sleeping 1 and 2 seconds in between, before surfacing the error. -/
theorem c7_counterexample_linear_retries :
    retry_async 3 1 (fun _ => Except.error "HTTP 500") =
      (Except.error "HTTP 500", 3, [1, 2]) ∧
    (3 : Nat) ≠ 1 := by
  refine ⟨by norm_num [retry_async, retry_async_go], by decide⟩

/-- C7 amended: the Jira client fails immediately on a non-429 HTTP error —
a JiraAPIError carrying the status and response body, after exactly one
attempt, with no sleep and no retry — while the Linear client's retry_async
decorator retries the whole failing query up to its 3 attempts with
exponential backoff (delays d and 2d) before surfacing the wrapped
LinearAPIError. -/
theorem c7_amended_http_error_handling (maxR : Nat) (pause : ℚ) (status : Nat)
    (ra : Option Int) (body : String) (rest : List RemoteOutcome)
    (hm : 0 < maxR) (hstatus : 400 ≤ status) (h429 : status ≠ 429) :
    jira_request maxR pause (RemoteOutcome.httpError status ra body :: rest) =
      (JiraResult.apiError status body, []) ∧
    ∀ (e : String) (d : ℚ),
      retry_async 3 d (fun _ => Except.error e) =
        (Except.error e, 3, [d, d * 2]) := by
  constructor
  · simp [jira_request, jira_request_go, hm, h429]
  · intro e d
    simp [retry_async, retry_async_go]

/-- C7 witness: the amended theorem applied at MAX_RETRIES = 3, pause 1, a
500 response with body "oops", and the Linear part at error "boom" with
delay 1. -/
theorem c7_amended_http_error_handling_witness :
    jira_request 3 1 [RemoteOutcome.httpError 500 none "oops"] =
      (JiraResult.apiError 500 "oops", []) ∧
    retry_async 3 1 (fun _ => Except.error "boom") =
      (Except.error "boom", 3, [1, 1 * 2]) := by
  have h := c7_amended_http_error_handling 3 1 500 none "oops" []
    (by norm_num) (by norm_num) (by norm_num)
  exact ⟨h.1, h.2 "boom" 1⟩

/-- C8: for a list endpoint whose pages at offsets 0, 100, ..., 100·n are
full (length exactly the fixed limit 100) until a final shorter page,
_paginate returns exactly the in-order concatenation of all the pages —
no item duplicated or skipped — and for an endpoint returning a non-list
object the object is returned unchanged. -/
theorem c8_pagination {α : Type} (f : Nat → PageResp α) (pages : Nat → List α)
    (n : Nat)
    (hfull : ∀ k, k < n →
      f (100 * k) = PageResp.list (pages k) ∧ (pages k).length = 100)
    (hlast : f (100 * n) = PageResp.list (pages n))
    (hshort : (pages n).length < 100) :
    paginate f (n + 1) =
      PaginateResult.items (((List.range (n + 1)).map pages).flatten) ∧
    ∀ (g : Nat → PageResp α) (obj : String) (fuel : Nat),
      g 0 = PageResp.single obj →
      paginate g (fuel + 1) = PaginateResult.single obj := by
  constructor
  · have h := paginate_go_concat f 100 n pages 0 []
      (by intro k hk; simpa using hfull k hk) (by simpa using hlast) hshort
    simpa [paginate] using h
  · intro g obj fuel hg
    simp [paginate, paginate_go, hg]

/-- C8 witness: the theorem applied to a single short page [7] and to a
singleton-object endpoint. -/
theorem c8_pagination_witness :
    paginate (fun _ => PageResp.list [7]) 1 = PaginateResult.items [7] ∧
    paginate (fun _ => (PageResp.single "solo" : PageResp Nat)) 1 =
      PaginateResult.single "solo" := by
  have h := c8_pagination (fun _ => PageResp.list [7]) (fun _ => [7]) 0
    (by intro k hk; exact absurd hk (Nat.not_lt_zero k)) rfl (by norm_num)
  refine ⟨by simpa using h.1,
    h.2 (fun _ => (PageResp.single "solo" : PageResp Nat)) "solo" 0 rfl⟩

/-- C9: acquire first refills the allowance by elapsed·rate/interval capped
at the capacity (the rate), then either sleeps exactly the deficit
1 − allowance and zeroes the bucket (when fewer than one token is
available), or debits exactly one token and does not sleep; rate and
interval are unchanged, and acquire is a total function — it never fails. -/
theorem c9_rate_limiter_acquire (rl : RateLimiter) (t : ℚ) :
    ((rl.acquire t).1.rate = rl.rate ∧ (rl.acquire t).1.interval = rl.interval) ∧
    (min (rl.allowance + t * (rl.rate / rl.interval)) rl.rate < 1 →
      rl.acquire t =
        ({ rl with allowance := 0 },
         1 - min (rl.allowance + t * (rl.rate / rl.interval)) rl.rate)) ∧
    (1 ≤ min (rl.allowance + t * (rl.rate / rl.interval)) rl.rate →
      rl.acquire t =
        ({ rl with allowance := min (rl.allowance + t * (rl.rate / rl.interval)) rl.rate - 1 }, 0)) := by
  have hcap : (if rl.allowance + t * (rl.rate / rl.interval) > rl.rate
      then rl.rate else rl.allowance + t * (rl.rate / rl.interval)) =
      min (rl.allowance + t * (rl.rate / rl.interval)) rl.rate := by
    split_ifs with h
    · exact (min_eq_right (le_of_lt h)).symm
    · exact (min_eq_left (not_lt.mp h)).symm
  simp only [RateLimiter.acquire, hcap]
  refine ⟨⟨?_, ?_⟩, fun h => if_pos h, fun h => if_neg (not_lt.mpr h)⟩
  · split_ifs <;> rfl
  · split_ifs <;> rfl

/-- C9 witness: the limiter the source constructs (rate 6, interval 5) with
a full bucket and zero elapsed time debits one token without sleeping, and
with a drained bucket sleeps the full one-second deficit. -/
theorem c9_rate_limiter_acquire_witness :
    (RateLimiter.init 6 5).acquire 0 = (⟨6, 5, 5⟩, 0) ∧
    (⟨6, 5, 0⟩ : RateLimiter).acquire 0 = (⟨6, 5, 0⟩, 1) := by
  constructor
  · have h := (c9_rate_limiter_acquire (RateLimiter.init 6 5) 0).2.2
      (by norm_num [RateLimiter.init])
    simpa [RateLimiter.init, show (6 : ℚ) - 1 = 5 from by norm_num] using h
  · have h := (c9_rate_limiter_acquire ⟨6, 5, 0⟩ 0).2.1 (by norm_num)
    simpa using h

/-- C10: the title under which a story or task is created in Linear is the
sanitized source text — non-alphanumeric characters other than space,
hyphen and underscore removed, truncated to at most 50 characters, stripped
of surrounding whitespace — and sanitisation can alter the text, so
destination titles may silently differ from source names. -/
theorem c10_sanitized_titles :
    (∀ s : PTStory,
      migrate_issue_title s = pyStrip ((s.name.filter keep_char).take 50) ∧
      (migrate_issue_title s).length ≤ 50 ∧
      (migrate_issue_title s).all keep_char = true ∧
      (migrate_issue_title s).takeWhile isPySpace = [] ∧
      (migrate_issue_title s).reverse.takeWhile isPySpace = []) ∧
    (∀ t : PTTask,
      migrate_task_title t = pyStrip ((t.description.filter keep_char).take 50) ∧
      (migrate_task_title t).length ≤ 50 ∧
      (migrate_task_title t).all keep_char = true ∧
      (migrate_task_title t).takeWhile isPySpace = [] ∧
      (migrate_task_title t).reverse.takeWhile isPySpace = []) ∧
    (∃ name : List Char, sanitize_name name ≠ name) := by
  refine ⟨fun s => ⟨rfl, sanitize_name_length_le _, sanitize_name_all_keep _,
      pyStrip_takeWhile_nil _, pyStrip_reverse_takeWhile_nil _⟩,
    fun t => ⟨rfl, sanitize_name_length_le _, sanitize_name_all_keep _,
      pyStrip_takeWhile_nil _, pyStrip_reverse_takeWhile_nil _⟩,
    ⟨['a', '!'], by decide⟩⟩

end EastAgileTracker
